import Mathlib

/-!
# Verification of the dnscheckip DNS responder core

Shallow embedding of `src/dnscheckip.py`: the DNS wire codec (header
bit-packing, question/label parsing, answer encoding), the five response
constructors, the response-selection guard chain of
`DNSCheckIPHandler.handle`, and the end-to-end datagram handler.

Byte buffers are modelled as `List Nat` (each entry one octet, `< 256` on
real wire input).  Fallible reads (`struct.unpack` / `bitstruct.unpack`
raising on short input) are modelled with `Option`: `none` is the Python
exception, which in `handle` propagates so that no reply datagram is sent.
-/

namespace Dnscheckip

/-- The 13-field DNS header, mirroring the Python `Header` namedtuple.
`qr`, `aa`, `tc`, `rd`, `ra` are booleans, exactly as `bitstruct` unpacks a
`b1` field; the remaining fields are unsigned integers of 16, 4, 3 and 4
bits respectively. -/
structure Header where
  id : Nat
  qr : Bool
  opcode : Nat
  aa : Bool
  tc : Bool
  rd : Bool
  ra : Bool
  z : Nat
  rcode : Nat
  qdcount : Nat
  ancount : Nat
  nscount : Nat
  arcount : Nat
deriving DecidableEq, Repr

/-- One question entry, mirroring the Python `Question` namedtuple:
`rawqname` is the wire bytes of the name exactly as consumed (length bytes,
label bytes and the terminating zero byte), `qname` the decoded dot-joined
name (byte 46 is the ASCII dot). -/
structure Question where
  rawqname : List Nat
  qname : List Nat
  qtype : Nat
  qclass : Nat
deriving DecidableEq, Repr

/-- An answer resource record, mirroring the Python `ResourceRecord`
namedtuple. -/
structure ResourceRecord where
  rawname : List Nat
  type : Nat
  class_ : Nat
  ttl : Nat
  rdlength : Nat
  rdata : List Nat
deriving DecidableEq, Repr

/-- A decoded or to-be-encoded message, mirroring the Python `Message`
namedtuple. -/
structure Message where
  header : Header
  questions : List Question
  answers : List ResourceRecord
deriving DecidableEq, Repr

/-- An IPv4 client source address as its four dotted-quad components; Python
obtains the corresponding 4 wire bytes via `socket.inet_aton(client[0])`. -/
structure IPv4 where
  a : Nat
  b : Nat
  c : Nat
  d : Nat
deriving DecidableEq, Repr

/-- `socket.inet_aton`: the 4-byte big-endian encoding of an IPv4 address
(most significant quad first). -/
def inet_aton (ip : IPv4) : List Nat :=
  [ip.a, ip.b, ip.c, ip.d]

/-- Decode the 12-byte header, bit layout
`u16 b1u4b1b1b1b1 u3u4 u16 u16 u16 u16` (big-endian, MSB-first), as
`readbits` does in `parse_msg`.  Fails (as `bitstruct.unpack` raises) when
fewer than 12 bytes remain; otherwise returns the header and the rest of
the buffer. -/
def parseHeader (buf : List Nat) : Option (Header × List Nat) :=
  if 12 ≤ buf.length then
    let b0 := buf.getD 0 0
    let b1 := buf.getD 1 0
    let b2 := buf.getD 2 0
    let b3 := buf.getD 3 0
    some (⟨b0 * 256 + b1,
           decide (b2 / 128 % 2 = 1),
           b2 / 8 % 16,
           decide (b2 / 4 % 2 = 1),
           decide (b2 / 2 % 2 = 1),
           decide (b2 % 2 = 1),
           decide (b3 / 128 % 2 = 1),
           b3 / 16 % 8,
           b3 % 16,
           buf.getD 4 0 * 256 + buf.getD 5 0,
           buf.getD 6 0 * 256 + buf.getD 7 0,
           buf.getD 8 0 * 256 + buf.getD 9 0,
           buf.getD 10 0 * 256 + buf.getD 11 0⟩,
          buf.drop 12)
  else none

/-- The label-reading loop of `parse_question`: reads length-prefixed labels
until a zero length byte, returning `(rawqname, qname, rest)`.  Each
iteration consumes at least one byte, so the Python `while True` loop is
embedded with a fuel argument; `parseName` below instantiates the fuel with
the buffer length, which by `parseNameF_fuel` is always enough.  A length
byte that claims more bytes than remain, or a buffer ending before the
terminating zero byte, fails (as `struct.unpack` raises on short reads). -/
def parseNameF : Nat → List Nat → Option (List Nat × List Nat × List Nat)
  | _, [] => none
  | _, 0 :: rest => some ([0], [], rest)
  | 0, _ :: _ => none
  | fuel + 1, size :: rest =>
    if size ≤ rest.length then
      match parseNameF fuel (rest.drop size) with
      | none => none
      | some (raw, qn, rest') =>
        some (size :: (rest.take size ++ raw), rest.take size ++ 46 :: qn, rest')
    else none

/-- The label loop of `parse_question`, with the fuel fixed to the buffer
length (sufficient, since every iteration consumes at least one byte). -/
def parseName (buf : List Nat) : Option (List Nat × List Nat × List Nat) :=
  parseNameF buf.length buf

/-- `parse_question`: read the name, then `qtype` and `qclass` as big-endian
16-bit values (`!HH`); fails if fewer than 4 bytes follow the name. -/
def parseQuestion (buf : List Nat) : Option (Question × List Nat) :=
  match parseName buf with
  | none => none
  | some (raw, qn, rest) =>
    match rest with
    | t1 :: t2 :: c1 :: c2 :: rest' =>
      some (⟨raw, qn, t1 * 256 + t2, c1 * 256 + c2⟩, rest')
    | _ => none

/-- The question loop of `parse_msg`: parse `n` questions in sequence. -/
def parseQuestions : Nat → List Nat → Option (List Question × List Nat)
  | 0, buf => some ([], buf)
  | n + 1, buf =>
    match parseQuestion buf with
    | none => none
    | some (q, rest) =>
      match parseQuestions n rest with
      | none => none
      | some (qs, rest') => some (q :: qs, rest')

/-- `parse_msg`: decode the header, then `qdcount` questions; answers are
never decoded.  Trailing bytes are ignored, as `BytesIO` simply stops being
read. -/
def parse_msg (buf : List Nat) : Option Message :=
  match parseHeader buf with
  | none => none
  | some (header, rest) =>
    match parseQuestions header.qdcount rest with
    | none => none
    | some (questions, _) => some ⟨header, questions, []⟩

/-- `not_impl_resp`: the Not-Implemented response (note the source writes
`rcode=0` here, despite its own `# Not Implemented` comment). -/
def not_impl_resp (msg : Message) : Message :=
  ⟨⟨msg.header.id, true, msg.header.opcode, false, false, msg.header.rd,
    false, 0, 0, 0, 0, 0, 0⟩, [], []⟩

/-- `fmt_err_resp`: the Format-Error response, `rcode=1`. -/
def fmt_err_resp (msg : Message) : Message :=
  ⟨⟨msg.header.id, true, msg.header.opcode, false, false, msg.header.rd,
    false, 0, 1, 0, 0, 0, 0⟩, [], []⟩

/-- `refused_resp`: the Refused response, `rcode=5`. -/
def refused_resp (msg : Message) : Message :=
  ⟨⟨msg.header.id, true, msg.header.opcode, false, false, msg.header.rd,
    false, 0, 5, 0, 0, 0, 0⟩, [], []⟩

/-- `no_recs_resp`: the No-Records response, `rcode=0`, `ancount=0`. -/
def no_recs_resp (msg : Message) : Message :=
  ⟨⟨msg.header.id, true, msg.header.opcode, false, false, msg.header.rd,
    false, 0, 0, 0, 0, 0, 0⟩, [], []⟩

/-- `client_ip_resp`: the Answer response, `aa=true`, `ancount=1`, with one
A record owning the first question's raw wire name, `ttl=1`, `rdlength=4`,
and `rdata = socket.inet_aton(client ip)`. -/
def client_ip_resp (msg : Message) (client : IPv4) : Message :=
  ⟨⟨msg.header.id, true, msg.header.opcode, true, false, msg.header.rd,
    false, 0, 0, 0, 1, 0, 0⟩, [],
   [⟨(msg.questions.headD ⟨[], [], 0, 0⟩).rawqname, 1, 1, 1, 4,
     inet_aton client⟩]⟩

/-- The wire bytes of `b"my.ip4.live."`, the one name the responder
answers. -/
def myIp4Live : List Nat :=
  [109, 121, 46, 105, 112, 52, 46, 108, 105, 118, 101, 46]

/-- The response-selection guard chain of `DNSCheckIPHandler.handle`
(lines 177-190), evaluated top-down, first match wins.  `msg.questions[0]`
is modelled with `headD`; in every reachable call the guard `qdcount < 1`
has already ensured the list is non-empty when the default could matter. -/
def decideResp (msg : Message) (client : IPv4) : Message :=
  if msg.header.qr ∨ msg.header.opcode ≠ 0 then not_impl_resp msg
  else if msg.header.tc then fmt_err_resp msg
  else if msg.header.qdcount < 1 then not_impl_resp msg
  else if ¬((msg.questions.headD ⟨[], [], 0, 0⟩).qtype = 1 ∨
            (msg.questions.headD ⟨[], [], 0, 0⟩).qtype = 255) then
    no_recs_resp msg
  else if (msg.questions.headD ⟨[], [], 0, 0⟩).qclass ≠ 1 then
    not_impl_resp msg
  else if (msg.questions.headD ⟨[], [], 0, 0⟩).qname ≠ myIp4Live then
    refused_resp msg
  else client_ip_resp msg client

/-- Encode the 12-byte header with the same bit layout as `parseHeader`
(`writebits` in `handle`). -/
def encodeHeader (h : Header) : List Nat :=
  [h.id / 256, h.id % 256,
   (if h.qr then 128 else 0) + h.opcode * 8 + (if h.aa then 4 else 0) +
     (if h.tc then 2 else 0) + (if h.rd then 1 else 0),
   (if h.ra then 128 else 0) + h.z * 16 + h.rcode,
   h.qdcount / 256, h.qdcount % 256,
   h.ancount / 256, h.ancount % 256,
   h.nscount / 256, h.nscount % 256,
   h.arcount / 256, h.arcount % 256]

/-- Encode one answer record, as `handle` does with
`writebytes(f"!0B", rawname)` followed by `writebytes("!HHIH4B", ...)`:
the raw owner name verbatim, then type, class (16-bit BE), ttl (32-bit BE),
rdlength (16-bit BE) and the 4 rdata bytes. -/
def encodeRR (r : ResourceRecord) : List Nat :=
  r.rawname ++
  [r.type / 256, r.type % 256,
   r.class_ / 256, r.class_ % 256,
   r.ttl / 16777216, r.ttl / 65536 % 256, r.ttl / 256 % 256, r.ttl % 256,
   r.rdlength / 256, r.rdlength % 256] ++
  r.rdata

/-- Encode a response message: the header bytes, then the first answer's
bytes when any answer is present (`if len(resp.answers)` in `handle`),
nothing else; the questions list is never encoded. -/
def encodeResp (m : Message) : List Nat :=
  encodeHeader m.header ++
  match m.answers with
  | [] => []
  | r :: _ => encodeRR r

/-- `DNSCheckIPHandler.handle` as a datagram-to-datagram function: decode,
select a response, encode.  `none` models a decode exception propagating
out of `handle`, in which case `sendto` is never reached and no bytes are
produced. -/
def handleQuery (buf : List Nat) (client : IPv4) : Option (List Nat) :=
  match parse_msg buf with
  | none => none
  | some msg => some (encodeResp (decideResp msg client))

/-! ## Helper lemmas -/

/-- Unfolding lemma for `parseHeader` on a buffer of at least 12 bytes. -/
theorem parseHeader_cons (b0 b1 b2 b3 b4 b5 b6 b7 b8 b9 b10 b11 : Nat) (rest : List Nat) :
    parseHeader (b0 :: b1 :: b2 :: b3 :: b4 :: b5 :: b6 :: b7 :: b8 :: b9 :: b10 :: b11 :: rest) =
      some (⟨b0 * 256 + b1,
             decide (b2 / 128 % 2 = 1), b2 / 8 % 16,
             decide (b2 / 4 % 2 = 1), decide (b2 / 2 % 2 = 1), decide (b2 % 2 = 1),
             decide (b3 / 128 % 2 = 1), b3 / 16 % 8, b3 % 16,
             b4 * 256 + b5, b6 * 256 + b7, b8 * 256 + b9, b10 * 256 + b11⟩, rest) := by
  simp [parseHeader]

/-! ## Claims -/

/-- C2: for every header whose 13 fields are within their bit-widths
(booleans are 1-bit by type), packing the header into its 12 wire bytes and
unpacking them with the same bit layout returns exactly the original
13 field values (and consumes the whole buffer). -/
theorem header_encode_decode_roundtrip (h : Header)
    (hid : h.id < 65536) (hop : h.opcode < 16) (hz : h.z < 8) (hrc : h.rcode < 16)
    (hqd : h.qdcount < 65536) (han : h.ancount < 65536) (hns : h.nscount < 65536)
    (har : h.arcount < 65536) :
    parseHeader (encodeHeader h) = some (h, []) := by
  obtain ⟨i, qr, op, aa, tc, rd, ra, z, rc, qd, an, ns, ar⟩ := h
  simp only at hid hop hz hrc hqd han hns har
  rw [encodeHeader, parseHeader_cons]
  simp only [Option.some.injEq, Prod.mk.injEq, Header.mk.injEq]
  cases qr <;> cases aa <;> cases tc <;> cases rd <;> cases ra <;>
    (simp only [Bool.false_eq_true, Bool.true_eq_false, if_true, if_false,
       decide_eq_false_iff_not, decide_eq_true_eq, and_true, true_and]; omega)

/-- Witness for C2 at a concrete header exercising every field. -/
theorem header_encode_decode_roundtrip_witness :
    parseHeader (encodeHeader ⟨4660, true, 3, false, true, false, true, 5, 9, 17, 259, 65535, 0⟩) =
      some (⟨4660, true, 3, false, true, false, true, 5, 9, 17, 259, 65535, 0⟩, []) :=
  header_encode_decode_roundtrip ⟨4660, true, 3, false, true, false, true, 5, 9, 17, 259, 65535, 0⟩
    (by decide) (by decide) (by decide) (by decide) (by decide) (by decide) (by decide) (by decide)

/-- C4: every response variant, and the response actually selected by the
guard chain, echoes the query header's `id` and `rd` fields verbatim. -/
theorem resp_echoes_id_rd (msg : Message) (client : IPv4) :
    ((not_impl_resp msg).header.id = msg.header.id ∧
     (not_impl_resp msg).header.rd = msg.header.rd) ∧
    ((fmt_err_resp msg).header.id = msg.header.id ∧
     (fmt_err_resp msg).header.rd = msg.header.rd) ∧
    ((no_recs_resp msg).header.id = msg.header.id ∧
     (no_recs_resp msg).header.rd = msg.header.rd) ∧
    ((refused_resp msg).header.id = msg.header.id ∧
     (refused_resp msg).header.rd = msg.header.rd) ∧
    ((client_ip_resp msg client).header.id = msg.header.id ∧
     (client_ip_resp msg client).header.rd = msg.header.rd) ∧
    ((decideResp msg client).header.id = msg.header.id ∧
     (decideResp msg client).header.rd = msg.header.rd) := by
  refine ⟨⟨rfl, rfl⟩, ⟨rfl, rfl⟩, ⟨rfl, rfl⟩, ⟨rfl, rfl⟩, ⟨rfl, rfl⟩, ?_⟩
  unfold decideResp
  split_ifs <;> exact ⟨rfl, rfl⟩

/-- C9: every response variant, and the response actually selected by the
guard chain, echoes the query header's `opcode` field verbatim (it is not
reset to 0). -/
theorem resp_echoes_opcode (msg : Message) (client : IPv4) :
    (not_impl_resp msg).header.opcode = msg.header.opcode ∧
    (fmt_err_resp msg).header.opcode = msg.header.opcode ∧
    (no_recs_resp msg).header.opcode = msg.header.opcode ∧
    (refused_resp msg).header.opcode = msg.header.opcode ∧
    (client_ip_resp msg client).header.opcode = msg.header.opcode ∧
    (decideResp msg client).header.opcode = msg.header.opcode := by
  refine ⟨rfl, rfl, rfl, rfl, rfl, ?_⟩
  unfold decideResp
  split_ifs <;> rfl

/-- C5: queries hitting policy rows 1 (`qr` set or nonzero opcode), 3
(`qdcount < 1`) or 5 (first question's `qclass ≠ 1`, with rows 1-4 not
matching) get the Not-Implemented response, which carries `rcode = 0` (not
the RFC's 4) and `ancount = 0`. -/
theorem not_impl_rows_rcode_zero (msg : Message) (client : IPv4) :
    ((msg.header.qr = true ∨ msg.header.opcode ≠ 0) →
      decideResp msg client = not_impl_resp msg ∧
      (decideResp msg client).header.rcode = 0 ∧
      (decideResp msg client).header.ancount = 0) ∧
    ((msg.header.qr = false ∧ msg.header.opcode = 0 ∧ msg.header.tc = false ∧
      msg.header.qdcount < 1) →
      decideResp msg client = not_impl_resp msg ∧
      (decideResp msg client).header.rcode = 0 ∧
      (decideResp msg client).header.ancount = 0) ∧
    ((msg.header.qr = false ∧ msg.header.opcode = 0 ∧ msg.header.tc = false ∧
      1 ≤ msg.header.qdcount ∧
      ((msg.questions.headD ⟨[], [], 0, 0⟩).qtype = 1 ∨
       (msg.questions.headD ⟨[], [], 0, 0⟩).qtype = 255) ∧
      (msg.questions.headD ⟨[], [], 0, 0⟩).qclass ≠ 1) →
      decideResp msg client = not_impl_resp msg ∧
      (decideResp msg client).header.rcode = 0 ∧
      (decideResp msg client).header.ancount = 0) := by
  refine ⟨fun h1 => ?_, fun ⟨h1, h2, h3, h4⟩ => ?_, fun ⟨h1, h2, h3, h4, h5, h6⟩ => ?_⟩
  · unfold decideResp
    rw [if_pos h1]
    exact ⟨rfl, rfl, rfl⟩
  · unfold decideResp
    rw [if_neg (by simp [h1, h2]), if_neg (by simp [h3]), if_pos h4]
    exact ⟨rfl, rfl, rfl⟩
  · unfold decideResp
    rw [if_neg (by simp [h1, h2]), if_neg (by simp [h3]), if_neg (by omega),
        if_neg (not_not_intro h5), if_pos h6]
    exact ⟨rfl, rfl, rfl⟩

/-- Witness for C5 at three concrete queries, one per row: a `qr=true`
query, a `qdcount=0` query, and a CHAOS-class (`qclass=3`) query. -/
theorem not_impl_rows_rcode_zero_witness :
    ((decideResp ⟨⟨7, true, 0, false, false, false, false, 0, 0, 1, 0, 0, 0⟩, [], []⟩
        ⟨1, 2, 3, 4⟩).header.rcode = 0 ∧
     (decideResp ⟨⟨7, true, 0, false, false, false, false, 0, 0, 1, 0, 0, 0⟩, [], []⟩
        ⟨1, 2, 3, 4⟩).header.ancount = 0) ∧
    ((decideResp ⟨⟨8, false, 0, false, false, false, false, 0, 0, 0, 0, 0, 0⟩, [], []⟩
        ⟨1, 2, 3, 4⟩).header.rcode = 0 ∧
     (decideResp ⟨⟨8, false, 0, false, false, false, false, 0, 0, 0, 0, 0, 0⟩, [], []⟩
        ⟨1, 2, 3, 4⟩).header.ancount = 0) ∧
    ((decideResp ⟨⟨9, false, 0, false, false, false, false, 0, 0, 1, 0, 0, 0⟩,
        [⟨[0], [], 1, 3⟩], []⟩ ⟨1, 2, 3, 4⟩).header.rcode = 0 ∧
     (decideResp ⟨⟨9, false, 0, false, false, false, false, 0, 0, 1, 0, 0, 0⟩,
        [⟨[0], [], 1, 3⟩], []⟩ ⟨1, 2, 3, 4⟩).header.ancount = 0) :=
  ⟨((not_impl_rows_rcode_zero
      ⟨⟨7, true, 0, false, false, false, false, 0, 0, 1, 0, 0, 0⟩, [], []⟩
      ⟨1, 2, 3, 4⟩).1 (by decide)).2,
   ((not_impl_rows_rcode_zero
      ⟨⟨8, false, 0, false, false, false, false, 0, 0, 0, 0, 0, 0⟩, [], []⟩
      ⟨1, 2, 3, 4⟩).2.1 (by decide)).2,
   ((not_impl_rows_rcode_zero
      ⟨⟨9, false, 0, false, false, false, false, 0, 0, 1, 0, 0, 0⟩,
       [⟨[0], [], 1, 3⟩], []⟩ ⟨1, 2, 3, 4⟩).2.2 (by decide)).2⟩

/-- C1: every successfully decoded query with `qr=false`, `opcode=0`,
`tc=false`, `qdcount ≥ 1`, first question `qtype ∈ {1,255}`, `qclass=1` and
decoded name `my.ip4.live.` gets the Answer response: `ancount=1`,
`rcode=0`, `aa=true`, `qr=true`, and a single answer record with `type=1`,
`class=1`, `ttl=1`, `rdlength=4`, owner name the question's raw wire-name
bytes, and rdata the 4-byte big-endian client IPv4 address. -/
theorem answer_response_fields (buf : List Nat) (msg : Message) (client : IPv4)
    (_hparse : parse_msg buf = some msg)
    (hqr : msg.header.qr = false)
    (hop : msg.header.opcode = 0)
    (htc : msg.header.tc = false)
    (hqd : 1 ≤ msg.header.qdcount)
    (hqt : (msg.questions.headD ⟨[], [], 0, 0⟩).qtype = 1 ∨
           (msg.questions.headD ⟨[], [], 0, 0⟩).qtype = 255)
    (hqc : (msg.questions.headD ⟨[], [], 0, 0⟩).qclass = 1)
    (hqn : (msg.questions.headD ⟨[], [], 0, 0⟩).qname = myIp4Live) :
    (decideResp msg client).header.ancount = 1 ∧
    (decideResp msg client).header.rcode = 0 ∧
    (decideResp msg client).header.aa = true ∧
    (decideResp msg client).header.qr = true ∧
    (decideResp msg client).answers =
      [⟨(msg.questions.headD ⟨[], [], 0, 0⟩).rawqname, 1, 1, 1, 4, inet_aton client⟩] := by
  have hresp : decideResp msg client = client_ip_resp msg client := by
    unfold decideResp
    rw [if_neg (by simp [hqr, hop]), if_neg (by simp [htc]), if_neg (by omega),
        if_neg (not_not_intro hqt), if_neg (not_not_intro hqc), if_neg (not_not_intro hqn)]
  rw [hresp]
  exact ⟨rfl, rfl, rfl, rfl, rfl⟩

/-- Witness for C1: the spec's concrete scenario, query `id=0x1234, rd=1`
for `my.ip4.live.` type A from `203.0.113.7`. -/
theorem answer_response_fields_witness :
    (decideResp
        ⟨⟨4660, false, 0, false, false, true, false, 0, 0, 1, 0, 0, 0⟩,
         [⟨[2, 109, 121, 3, 105, 112, 52, 4, 108, 105, 118, 101, 0],
           [109, 121, 46, 105, 112, 52, 46, 108, 105, 118, 101, 46], 1, 1⟩], []⟩
        ⟨203, 0, 113, 7⟩).header.ancount = 1 ∧
    (decideResp
        ⟨⟨4660, false, 0, false, false, true, false, 0, 0, 1, 0, 0, 0⟩,
         [⟨[2, 109, 121, 3, 105, 112, 52, 4, 108, 105, 118, 101, 0],
           [109, 121, 46, 105, 112, 52, 46, 108, 105, 118, 101, 46], 1, 1⟩], []⟩
        ⟨203, 0, 113, 7⟩).header.rcode = 0 ∧
    (decideResp
        ⟨⟨4660, false, 0, false, false, true, false, 0, 0, 1, 0, 0, 0⟩,
         [⟨[2, 109, 121, 3, 105, 112, 52, 4, 108, 105, 118, 101, 0],
           [109, 121, 46, 105, 112, 52, 46, 108, 105, 118, 101, 46], 1, 1⟩], []⟩
        ⟨203, 0, 113, 7⟩).header.aa = true ∧
    (decideResp
        ⟨⟨4660, false, 0, false, false, true, false, 0, 0, 1, 0, 0, 0⟩,
         [⟨[2, 109, 121, 3, 105, 112, 52, 4, 108, 105, 118, 101, 0],
           [109, 121, 46, 105, 112, 52, 46, 108, 105, 118, 101, 46], 1, 1⟩], []⟩
        ⟨203, 0, 113, 7⟩).header.qr = true ∧
    (decideResp
        ⟨⟨4660, false, 0, false, false, true, false, 0, 0, 1, 0, 0, 0⟩,
         [⟨[2, 109, 121, 3, 105, 112, 52, 4, 108, 105, 118, 101, 0],
           [109, 121, 46, 105, 112, 52, 46, 108, 105, 118, 101, 46], 1, 1⟩], []⟩
        ⟨203, 0, 113, 7⟩).answers =
      [⟨[2, 109, 121, 3, 105, 112, 52, 4, 108, 105, 118, 101, 0], 1, 1, 1, 4,
        [203, 0, 113, 7]⟩] :=
  answer_response_fields
    [18, 52, 1, 0, 0, 1, 0, 0, 0, 0, 0, 0,
     2, 109, 121, 3, 105, 112, 52, 4, 108, 105, 118, 101, 0, 0, 1, 0, 1]
    ⟨⟨4660, false, 0, false, false, true, false, 0, 0, 1, 0, 0, 0⟩,
     [⟨[2, 109, 121, 3, 105, 112, 52, 4, 108, 105, 118, 101, 0],
       [109, 121, 46, 105, 112, 52, 46, 108, 105, 118, 101, 46], 1, 1⟩], []⟩
    ⟨203, 0, 113, 7⟩
    (by decide) (by decide) (by decide) (by decide) (by decide) (by decide)
    (by decide) (by decide)

/-- Counterexample to C6 as stated: a decoded `qtype=2` query for
`my.ip4.live.` gets the No-Records response, but its header differs from
the Answer variant's header in the `aa` field too, not only in `ancount`. -/
theorem no_records_only_ancount_counterexample :
    parse_msg
        [0, 2, 0, 0, 0, 1, 0, 0, 0, 0, 0, 0,
         2, 109, 121, 3, 105, 112, 52, 4, 108, 105, 118, 101, 0, 0, 2, 0, 1] =
      some ⟨⟨2, false, 0, false, false, false, false, 0, 0, 1, 0, 0, 0⟩,
            [⟨[2, 109, 121, 3, 105, 112, 52, 4, 108, 105, 118, 101, 0],
              [109, 121, 46, 105, 112, 52, 46, 108, 105, 118, 101, 46], 2, 1⟩], []⟩ ∧
    decideResp
        ⟨⟨2, false, 0, false, false, false, false, 0, 0, 1, 0, 0, 0⟩,
         [⟨[2, 109, 121, 3, 105, 112, 52, 4, 108, 105, 118, 101, 0],
           [109, 121, 46, 105, 112, 52, 46, 108, 105, 118, 101, 46], 2, 1⟩], []⟩
        ⟨203, 0, 113, 7⟩ =
      no_recs_resp
        ⟨⟨2, false, 0, false, false, false, false, 0, 0, 1, 0, 0, 0⟩,
         [⟨[2, 109, 121, 3, 105, 112, 52, 4, 108, 105, 118, 101, 0],
           [109, 121, 46, 105, 112, 52, 46, 108, 105, 118, 101, 46], 2, 1⟩], []⟩ ∧
    (decideResp
        ⟨⟨2, false, 0, false, false, false, false, 0, 0, 1, 0, 0, 0⟩,
         [⟨[2, 109, 121, 3, 105, 112, 52, 4, 108, 105, 118, 101, 0],
           [109, 121, 46, 105, 112, 52, 46, 108, 105, 118, 101, 46], 2, 1⟩], []⟩
        ⟨203, 0, 113, 7⟩).header.aa ≠
      (client_ip_resp
        ⟨⟨2, false, 0, false, false, false, false, 0, 0, 1, 0, 0, 0⟩,
         [⟨[2, 109, 121, 3, 105, 112, 52, 4, 108, 105, 118, 101, 0],
           [109, 121, 46, 105, 112, 52, 46, 108, 105, 118, 101, 46], 2, 1⟩], []⟩
        ⟨203, 0, 113, 7⟩).header.aa := by
  decide

/-- C6 (amended): every decoded query with first question's
`qtype ∉ {1,255}` but otherwise valid gets the No-Records response with
`rcode=0` and `ancount=0`, whose header differs from the Answer variant's
header only in the `ancount` and `aa` fields. -/
theorem no_records_response (buf : List Nat) (msg : Message) (client : IPv4)
    (_hparse : parse_msg buf = some msg)
    (hqr : msg.header.qr = false)
    (hop : msg.header.opcode = 0)
    (htc : msg.header.tc = false)
    (hqd : 1 ≤ msg.header.qdcount)
    (hqt : ¬((msg.questions.headD ⟨[], [], 0, 0⟩).qtype = 1 ∨
             (msg.questions.headD ⟨[], [], 0, 0⟩).qtype = 255)) :
    decideResp msg client = no_recs_resp msg ∧
    (decideResp msg client).header.rcode = 0 ∧
    (decideResp msg client).header.ancount = 0 ∧
    ((decideResp msg client).header.id = (client_ip_resp msg client).header.id ∧
     (decideResp msg client).header.qr = (client_ip_resp msg client).header.qr ∧
     (decideResp msg client).header.opcode = (client_ip_resp msg client).header.opcode ∧
     (decideResp msg client).header.tc = (client_ip_resp msg client).header.tc ∧
     (decideResp msg client).header.rd = (client_ip_resp msg client).header.rd ∧
     (decideResp msg client).header.ra = (client_ip_resp msg client).header.ra ∧
     (decideResp msg client).header.z = (client_ip_resp msg client).header.z ∧
     (decideResp msg client).header.rcode = (client_ip_resp msg client).header.rcode ∧
     (decideResp msg client).header.qdcount = (client_ip_resp msg client).header.qdcount ∧
     (decideResp msg client).header.nscount = (client_ip_resp msg client).header.nscount ∧
     (decideResp msg client).header.arcount = (client_ip_resp msg client).header.arcount) ∧
    (decideResp msg client).header.aa ≠ (client_ip_resp msg client).header.aa ∧
    (decideResp msg client).header.ancount ≠ (client_ip_resp msg client).header.ancount := by
  have hresp : decideResp msg client = no_recs_resp msg := by
    unfold decideResp
    rw [if_neg (by simp [hqr, hop]), if_neg (by simp [htc]), if_neg (by omega), if_pos hqt]
  rw [hresp]
  refine ⟨rfl, rfl, rfl, ⟨rfl, rfl, rfl, rfl, rfl, rfl, rfl, rfl, rfl, rfl, rfl⟩, ?_, ?_⟩
  · simp [no_recs_resp, client_ip_resp]
  · simp [no_recs_resp, client_ip_resp]

/-- Witness for C6 (amended) at the concrete `qtype=2` query. -/
theorem no_records_response_witness :
    decideResp
        ⟨⟨2, false, 0, false, false, false, false, 0, 0, 1, 0, 0, 0⟩,
         [⟨[2, 109, 121, 3, 105, 112, 52, 4, 108, 105, 118, 101, 0],
           [109, 121, 46, 105, 112, 52, 46, 108, 105, 118, 101, 46], 2, 1⟩], []⟩
        ⟨198, 51, 100, 9⟩ =
      no_recs_resp
        ⟨⟨2, false, 0, false, false, false, false, 0, 0, 1, 0, 0, 0⟩,
         [⟨[2, 109, 121, 3, 105, 112, 52, 4, 108, 105, 118, 101, 0],
           [109, 121, 46, 105, 112, 52, 46, 108, 105, 118, 101, 46], 2, 1⟩], []⟩ ∧
    (decideResp
        ⟨⟨2, false, 0, false, false, false, false, 0, 0, 1, 0, 0, 0⟩,
         [⟨[2, 109, 121, 3, 105, 112, 52, 4, 108, 105, 118, 101, 0],
           [109, 121, 46, 105, 112, 52, 46, 108, 105, 118, 101, 46], 2, 1⟩], []⟩
        ⟨198, 51, 100, 9⟩).header.ancount ≠
      (client_ip_resp
        ⟨⟨2, false, 0, false, false, false, false, 0, 0, 1, 0, 0, 0⟩,
         [⟨[2, 109, 121, 3, 105, 112, 52, 4, 108, 105, 118, 101, 0],
           [109, 121, 46, 105, 112, 52, 46, 108, 105, 118, 101, 46], 2, 1⟩], []⟩
        ⟨198, 51, 100, 9⟩).header.ancount :=
  ⟨(no_records_response
      [0, 2, 0, 0, 0, 1, 0, 0, 0, 0, 0, 0,
       2, 109, 121, 3, 105, 112, 52, 4, 108, 105, 118, 101, 0, 0, 2, 0, 1]
      ⟨⟨2, false, 0, false, false, false, false, 0, 0, 1, 0, 0, 0⟩,
       [⟨[2, 109, 121, 3, 105, 112, 52, 4, 108, 105, 118, 101, 0],
         [109, 121, 46, 105, 112, 52, 46, 108, 105, 118, 101, 46], 2, 1⟩], []⟩
      ⟨198, 51, 100, 9⟩
      (by decide) (by decide) (by decide) (by decide) (by decide) (by decide)).1,
   (no_records_response
      [0, 2, 0, 0, 0, 1, 0, 0, 0, 0, 0, 0,
       2, 109, 121, 3, 105, 112, 52, 4, 108, 105, 118, 101, 0, 0, 2, 0, 1]
      ⟨⟨2, false, 0, false, false, false, false, 0, 0, 1, 0, 0, 0⟩,
       [⟨[2, 109, 121, 3, 105, 112, 52, 4, 108, 105, 118, 101, 0],
         [109, 121, 46, 105, 112, 52, 46, 108, 105, 118, 101, 46], 2, 1⟩], []⟩
      ⟨198, 51, 100, 9⟩
      (by decide) (by decide) (by decide) (by decide) (by decide) (by decide)).2.2.2.2.2⟩

/-- C7: for every query and every selected response, the response header's
`qdcount` is 0, the questions list is empty, and the encoded output is
exactly the 12 header bytes followed by the first answer's bytes when an
answer is present and nothing else. -/
theorem resp_no_question_section (msg : Message) (client : IPv4) :
    (decideResp msg client).header.qdcount = 0 ∧
    (decideResp msg client).questions = [] ∧
    (encodeHeader (decideResp msg client).header).length = 12 ∧
    ((decideResp msg client).answers = [] →
      encodeResp (decideResp msg client) = encodeHeader (decideResp msg client).header) ∧
    (∀ r rs, (decideResp msg client).answers = r :: rs →
      encodeResp (decideResp msg client) =
        encodeHeader (decideResp msg client).header ++ encodeRR r) := by
  unfold decideResp
  split_ifs <;> refine ⟨rfl, rfl, rfl, fun h => ?_, fun r rs h => ?_⟩ <;>
    simp_all [encodeResp, not_impl_resp, fmt_err_resp, refused_resp, no_recs_resp,
      client_ip_resp]

/-- Witness for C7: an answered query (answer present) and a rejected one
(no answer). -/
theorem resp_no_question_section_witness :
    (decideResp
        ⟨⟨4660, false, 0, false, false, true, false, 0, 0, 1, 0, 0, 0⟩,
         [⟨[2, 109, 121, 3, 105, 112, 52, 4, 108, 105, 118, 101, 0],
           [109, 121, 46, 105, 112, 52, 46, 108, 105, 118, 101, 46], 1, 1⟩], []⟩
        ⟨203, 0, 113, 7⟩).header.qdcount = 0 ∧
    encodeResp (decideResp
        ⟨⟨7, true, 0, false, false, false, false, 0, 0, 1, 0, 0, 0⟩, [], []⟩
        ⟨203, 0, 113, 7⟩) =
      encodeHeader (decideResp
        ⟨⟨7, true, 0, false, false, false, false, 0, 0, 1, 0, 0, 0⟩, [], []⟩
        ⟨203, 0, 113, 7⟩).header ∧
    encodeResp (decideResp
        ⟨⟨4660, false, 0, false, false, true, false, 0, 0, 1, 0, 0, 0⟩,
         [⟨[2, 109, 121, 3, 105, 112, 52, 4, 108, 105, 118, 101, 0],
           [109, 121, 46, 105, 112, 52, 46, 108, 105, 118, 101, 46], 1, 1⟩], []⟩
        ⟨203, 0, 113, 7⟩) =
      encodeHeader (decideResp
        ⟨⟨4660, false, 0, false, false, true, false, 0, 0, 1, 0, 0, 0⟩,
         [⟨[2, 109, 121, 3, 105, 112, 52, 4, 108, 105, 118, 101, 0],
           [109, 121, 46, 105, 112, 52, 46, 108, 105, 118, 101, 46], 1, 1⟩], []⟩
        ⟨203, 0, 113, 7⟩).header ++
      encodeRR ⟨[2, 109, 121, 3, 105, 112, 52, 4, 108, 105, 118, 101, 0], 1, 1, 1, 4,
        [203, 0, 113, 7]⟩ :=
  ⟨(resp_no_question_section
      ⟨⟨4660, false, 0, false, false, true, false, 0, 0, 1, 0, 0, 0⟩,
       [⟨[2, 109, 121, 3, 105, 112, 52, 4, 108, 105, 118, 101, 0],
         [109, 121, 46, 105, 112, 52, 46, 108, 105, 118, 101, 46], 1, 1⟩], []⟩
      ⟨203, 0, 113, 7⟩).1,
   (resp_no_question_section
      ⟨⟨7, true, 0, false, false, false, false, 0, 0, 1, 0, 0, 0⟩, [], []⟩
      ⟨203, 0, 113, 7⟩).2.2.2.1 (by decide),
   (resp_no_question_section
      ⟨⟨4660, false, 0, false, false, true, false, 0, 0, 1, 0, 0, 0⟩,
       [⟨[2, 109, 121, 3, 105, 112, 52, 4, 108, 105, 118, 101, 0],
         [109, 121, 46, 105, 112, 52, 46, 108, 105, 118, 101, 46], 1, 1⟩], []⟩
      ⟨203, 0, 113, 7⟩).2.2.2.2
      ⟨[2, 109, 121, 3, 105, 112, 52, 4, 108, 105, 118, 101, 0], 1, 1, 1, 4,
        [203, 0, 113, 7]⟩ [] (by decide)⟩

/-- Fuel irrelevance for the label loop: any fuel at least the buffer
length gives the same result, so `parseName`, which uses the buffer length
itself, faithfully embeds the unbounded `while True` loop of
`parse_question` (each iteration consumes at least one byte). -/
theorem parseNameF_fuel : ∀ (f1 f2 : Nat) (buf : List Nat), buf.length ≤ f1 → buf.length ≤ f2 →
    parseNameF f1 buf = parseNameF f2 buf := by
  intro f1
  induction f1 using Nat.strong_induction_on with
  | _ f1 ih =>
    intro f2 buf h1 h2
    cases buf with
    | nil => simp [parseNameF]
    | cons size rest =>
      cases size with
      | zero => simp [parseNameF]
      | succ n =>
        have hl1 : rest.length + 1 ≤ f1 := by simpa using h1
        have hl2 : rest.length + 1 ≤ f2 := by simpa using h2
        obtain ⟨k, rfl⟩ : ∃ k, f1 = k + 1 := ⟨f1 - 1, by omega⟩
        obtain ⟨m, rfl⟩ : ∃ m, f2 = m + 1 := ⟨f2 - 1, by omega⟩
        simp only [parseNameF]
        by_cases hle : n + 1 ≤ rest.length
        · rw [if_pos hle, if_pos hle,
            ih k (Nat.lt_succ_self k) m (rest.drop (n + 1))
              (by simp [List.length_drop]; omega) (by simp [List.length_drop]; omega)]
        · rw [if_neg hle, if_neg hle]

/-- Every successful run of the label loop decomposes its outputs by the
consumed labels: the raw name is the length-prefixed labels plus the zero
terminator, and the decoded name is the labels each followed by a dot. -/
theorem parseNameF_name_shape : ∀ (fuel : Nat) (buf raw qn rest : List Nat),
    parseNameF fuel buf = some (raw, qn, rest) →
    ∃ labels : List (List Nat),
      raw = (labels.map (fun l => l.length :: l)).flatten ++ [0] ∧
      qn = (labels.map (fun l => l ++ [46])).flatten := by
  intro fuel
  induction fuel with
  | zero =>
    intro buf raw qn rest h
    match buf with
    | [] => simp [parseNameF] at h
    | 0 :: r =>
      simp only [parseNameF, Option.some.injEq, Prod.mk.injEq] at h
      obtain ⟨h1, h2, h3⟩ := h
      exact ⟨[], by simp [← h1], by simp [← h2]⟩
    | (n+1) :: r => simp [parseNameF] at h
  | succ f ihf =>
    intro buf raw qn rest h
    match buf with
    | [] => simp [parseNameF] at h
    | 0 :: r =>
      simp only [parseNameF, Option.some.injEq, Prod.mk.injEq] at h
      obtain ⟨h1, h2, h3⟩ := h
      exact ⟨[], by simp [← h1], by simp [← h2]⟩
    | (n+1) :: r =>
      simp only [parseNameF] at h
      by_cases hle : n + 1 ≤ r.length
      · rw [if_pos hle] at h
        cases hrec : parseNameF f (r.drop (n + 1)) with
        | none => rw [hrec] at h; cases h
        | some t =>
          obtain ⟨raw2, qn2, rest2⟩ := t
          rw [hrec] at h
          simp only [Option.some.injEq, Prod.mk.injEq] at h
          obtain ⟨h1, h2, h3⟩ := h
          obtain ⟨ls, hraw2, hqn2⟩ := ihf (r.drop (n + 1)) raw2 qn2 rest2 hrec
          have htl : (r.take (n + 1)).length = n + 1 := by
            simp [List.length_take]; omega
          refine ⟨r.take (n + 1) :: ls, ?_, ?_⟩
          · rw [← h1, hraw2]
            simp [htl]
          · rw [← h2, hqn2]
            simp
      · rw [if_neg hle] at h
        cases h

/-- A non-empty dot-joined label string ends in the dot byte. -/
theorem dotted_ends_dot : ∀ ls : List (List Nat),
    (ls.map (fun l => l ++ [46])).flatten ≠ [] →
    ∃ pre, (ls.map (fun l => l ++ [46])).flatten = pre ++ [46] := by
  intro ls
  induction ls with
  | nil => intro h; simp at h
  | cons l ls ih =>
    intro _
    by_cases hrest : (ls.map (fun x => x ++ [46])).flatten = []
    · exact ⟨l, by simp [hrest]⟩
    · obtain ⟨pre, hpre⟩ := ih hrest
      exact ⟨l ++ [46] ++ pre, by simp [hpre]⟩

/-- Counterexample to C8 as stated: the root name, encoded as the single
zero byte, decodes successfully with the empty string as its name, which
does not end in a dot. -/
theorem question_name_trailing_dot_counterexample :
    parseQuestion [0, 0, 1, 0, 1] = some (⟨[0], [], 1, 1⟩, []) ∧
    (⟨[0], [], 1, 1⟩ : Question).qname = [] ∧
    (⟨[0], [], 1, 1⟩ : Question).qname.getLast? ≠ some 46 := by
  decide

/-- C8 (amended): every successfully decoded question's name is the
dot-joined sequence of the labels its raw wire name spells, with a
trailing dot after every label; a name with at least one label ends in a
dot, while the root (zero-label) name decodes to the empty string. -/
theorem question_name_dot_joined (buf : List Nat) (q : Question) (rest : List Nat)
    (h : parseQuestion buf = some (q, rest)) :
    (∃ labels : List (List Nat),
      q.rawqname = (labels.map (fun l => l.length :: l)).flatten ++ [0] ∧
      q.qname = (labels.map (fun l => l ++ [46])).flatten) ∧
    (q.qname ≠ [] → ∃ pre, q.qname = pre ++ [46]) := by
  unfold parseQuestion at h
  cases hname : parseName buf with
  | none => rw [hname] at h; cases h
  | some t =>
    obtain ⟨raw, qn, r⟩ := t
    rw [hname] at h
    match r, h with
    | t1 :: t2 :: c1 :: c2 :: rest2, h =>
      simp only [Option.some.injEq, Prod.mk.injEq] at h
      obtain ⟨hq, hrest⟩ := h
      obtain ⟨ls, hraw, hls⟩ :=
        parseNameF_name_shape buf.length buf raw qn (t1 :: t2 :: c1 :: c2 :: rest2) hname
      rw [← hq]
      constructor
      · exact ⟨ls, hraw, hls⟩
      · intro hne
        have hflat : (ls.map (fun l => l ++ [46])).flatten ≠ [] := by
          rw [← hls]; exact hne
        obtain ⟨pre, hpre⟩ := dotted_ends_dot ls hflat
        exact ⟨pre, by rw [hls, hpre]⟩

/-- Witness for C8 (amended) at a decoded one-label question. -/
theorem question_name_dot_joined_witness :
    (∃ labels : List (List Nat),
      (⟨[2, 109, 121, 0], [109, 121, 46], 1, 1⟩ : Question).rawqname =
        (labels.map (fun l => l.length :: l)).flatten ++ [0] ∧
      (⟨[2, 109, 121, 0], [109, 121, 46], 1, 1⟩ : Question).qname =
        (labels.map (fun l => l ++ [46])).flatten) ∧
    ((⟨[2, 109, 121, 0], [109, 121, 46], 1, 1⟩ : Question).qname ≠ [] →
      ∃ pre, (⟨[2, 109, 121, 0], [109, 121, 46], 1, 1⟩ : Question).qname = pre ++ [46]) :=
  question_name_dot_joined [2, 109, 121, 0, 0, 1, 0, 1]
    ⟨[2, 109, 121, 0], [109, 121, 46], 1, 1⟩ [] (by decide)

/-- C3: a buffer shorter than the 12-byte header fails to decode and the
handler sends nothing; a label length byte claiming more bytes than remain
fails the name parse; and every name-parse, question-parse or
message-decode failure propagates so that no response bytes are produced. -/
theorem truncated_no_response :
    (∀ (buf : List Nat) (client : IPv4), buf.length < 12 →
      parse_msg buf = none ∧ handleQuery buf client = none) ∧
    (∀ (size : Nat) (rest : List Nat), size ≠ 0 → rest.length < size →
      parseName (size :: rest) = none) ∧
    (∀ buf : List Nat, parseName buf = none → parseQuestion buf = none) ∧
    (∀ (n : Nat) (buf : List Nat), parseQuestion buf = none →
      parseQuestions (n + 1) buf = none) ∧
    (∀ (buf : List Nat) (client : IPv4), parse_msg buf = none →
      handleQuery buf client = none) := by
  refine ⟨?_, ?_, ?_, ?_, ?_⟩
  · intro buf client h
    have hh : parseHeader buf = none := by
      unfold parseHeader
      rw [if_neg (by omega)]
    have hm : parse_msg buf = none := by simp [parse_msg, hh]
    exact ⟨hm, by simp [handleQuery, hm]⟩
  · intro size rest hs hl
    cases size with
    | zero => exact absurd rfl hs
    | succ n =>
      show parseNameF (rest.length + 1) ((n + 1) :: rest) = none
      simp only [parseNameF]
      rw [if_neg (by omega)]
  · intro buf h
    simp [parseQuestion, h]
  · intro n buf h
    simp [parseQuestions, h]
  · intro buf client h
    simp [handleQuery, h]

/-- Witness for C3: a 3-byte datagram, a label claiming 5 bytes with 1
remaining, and the same bad label inside a full message. -/
theorem truncated_no_response_witness :
    (parse_msg [0, 1, 2] = none ∧ handleQuery [0, 1, 2] ⟨9, 8, 7, 6⟩ = none) ∧
    parseName [5, 1] = none ∧
    parseQuestion [5, 1] = none ∧
    parseQuestions 1 [5, 1] = none ∧
    handleQuery [0, 0, 0, 0, 0, 1, 0, 0, 0, 0, 0, 0, 5, 1] ⟨9, 8, 7, 6⟩ = none :=
  ⟨truncated_no_response.1 [0, 1, 2] ⟨9, 8, 7, 6⟩ (by decide),
   truncated_no_response.2.1 5 [1] (by decide) (by decide),
   truncated_no_response.2.2.1 [5, 1] (by decide),
   truncated_no_response.2.2.2.1 0 [5, 1] (by decide),
   truncated_no_response.2.2.2.2 [0, 0, 0, 0, 0, 1, 0, 0, 0, 0, 0, 0, 5, 1]
     ⟨9, 8, 7, 6⟩ (by decide)⟩

/-- C10: the decoder parses all `qdcount` declared questions, not just the
first: a failure parsing the remaining questions after any successful one
fails the whole loop, and a header-parse success followed by a question-loop
failure fails the whole decode, so the handler produces no bytes. -/
theorem all_questions_parsed :
    (∀ (n : Nat) (buf : List Nat) (q : Question) (rest : List Nat),
      parseQuestion buf = some (q, rest) → parseQuestions n rest = none →
      parseQuestions (n + 1) buf = none) ∧
    (∀ (buf : List Nat) (client : IPv4) (hdr : Header) (rest : List Nat),
      parseHeader buf = some (hdr, rest) → 2 ≤ hdr.qdcount →
      parseQuestions hdr.qdcount rest = none →
      parse_msg buf = none ∧ handleQuery buf client = none) := by
  constructor
  · intro n buf q rest h1 h2
    simp [parseQuestions, h1, h2]
  · intro buf client hdr rest h1 hq h2
    have hm : parse_msg buf = none := by simp [parse_msg, h1, h2]
    exact ⟨hm, by simp [handleQuery, hm]⟩

/-- Witness for C10: a message declaring `qdcount=2` whose first question
is well-formed and whose second is missing entirely. -/
theorem all_questions_parsed_witness :
    parseQuestions 2 [0, 0, 1, 0, 1] = none ∧
    parse_msg [0, 3, 0, 0, 0, 2, 0, 0, 0, 0, 0, 0, 0, 0, 1, 0, 1] = none ∧
    handleQuery [0, 3, 0, 0, 0, 2, 0, 0, 0, 0, 0, 0, 0, 0, 1, 0, 1] ⟨9, 8, 7, 6⟩ = none :=
  ⟨all_questions_parsed.1 1 [0, 0, 1, 0, 1] ⟨[0], [], 1, 1⟩ [] (by decide) (by decide),
   (all_questions_parsed.2 [0, 3, 0, 0, 0, 2, 0, 0, 0, 0, 0, 0, 0, 0, 1, 0, 1] ⟨9, 8, 7, 6⟩
     ⟨3, false, 0, false, false, false, false, 0, 0, 2, 0, 0, 0⟩ [0, 0, 1, 0, 1]
     (by decide) (by decide) (by decide)).1,
   (all_questions_parsed.2 [0, 3, 0, 0, 0, 2, 0, 0, 0, 0, 0, 0, 0, 0, 1, 0, 1] ⟨9, 8, 7, 6⟩
     ⟨3, false, 0, false, false, false, false, 0, 0, 2, 0, 0, 0⟩ [0, 0, 1, 0, 1]
     (by decide) (by decide) (by decide)).2⟩

end Dnscheckip
